import Mathlib

/-!
Verification of the rule-based clinical scoring pipeline of the
beforedoctor repository, embedded from
src/python/advanced_nih_training_pipeline.py,
src/python/nih_chest_xray_training/nih_data_processor.py and
src/python/nih_chest_xray_training/train_nih_models.py.

Condition weights and scores are embedded as exact rationals; patient
ages are integers, matching the int coercion applied by the Python code.
-/

set_option linter.unusedVariables false

namespace BeforeDoctor

/-- Age groups of clinical_params.age_groups in
AdvancedNIHTrainingPipeline.__init__. -/
inductive AgeGroup where
  | infant
  | toddler
  | child
  | adolescent
deriving DecidableEq, Repr

/-- severity_weights table of _calculate_clinical_severity. -/
def severity_weights : List (String × ℚ) :=
  [("Pneumonia", 7/10), ("Consolidation", 6/10), ("Effusion", 5/10),
   ("Atelectasis", 4/10), ("Pneumothorax", 9/10), ("Mass", 8/10),
   ("Cardiomegaly", 6/10), ("Edema", 5/10)]

/-- urgency_weights table of _calculate_clinical_urgency. -/
def urgency_weights : List (String × ℚ) :=
  [("Pneumothorax", 95/100), ("Mass", 8/10), ("Pneumonia", 7/10),
   ("Cardiomegaly", 6/10), ("Effusion", 5/10), ("Consolidation", 6/10)]

/-- Dictionary lookup with default 0: a condition present in the table
contributes its weight, any other string contributes nothing. -/
def lookupWeight (table : List (String × ℚ)) (c : String) : ℚ :=
  match table.find? (fun p => p.1 == c) with
  | some p => p.2
  | none => 0

/-- The accumulation loop `for finding in findings: if finding in w:
base_score += w[finding]` shared by both scorers. -/
def sumWeights (table : List (String × ℚ)) (findings : List String) : ℚ :=
  findings.foldl (fun acc f => acc + lookupWeight table f) 0

/-- _calculate_clinical_severity: weighted sum, age multiplier
(≤2 → 1.3, ≤5 → 1.2, ≤12 → 1.1), gender multiplier (1.05 for female
under 10), clamped at 1.0. -/
def _calculate_clinical_severity (findings : List String) (age : ℤ) (gender : String) : ℚ :=
  let base1 := sumWeights severity_weights findings
  let base2 :=
    if age ≤ 2 then base1 * (13/10)
    else if age ≤ 5 then base1 * (12/10)
    else if age ≤ 12 then base1 * (11/10)
    else base1
  let base3 := if gender = "F" ∧ age < 10 then base2 * (21/20) else base2
  min base3 1

/-- _calculate_clinical_urgency: weighted sum, age multiplier
(≤2 → 1.4, ≤5 → 1.25), clamped at 1.0. The gender argument is accepted
but unused, as in the Python signature. -/
def _calculate_clinical_urgency (findings : List String) (age : ℤ) (gender : String) : ℚ :=
  let base1 := sumWeights urgency_weights findings
  let base2 :=
    if age ≤ 2 then base1 * (14/10)
    else if age ≤ 5 then base1 * (125/100)
    else base1
  min base2 1

/-- _calculate_risk_score: 0.6·severity + 0.4·urgency, ×1.1 when more
than one finding is present, clamped at 1.0. -/
def _calculate_risk_score (findings : List String) (age : ℤ) (gender : String) : ℚ :=
  let severity := _calculate_clinical_severity findings age gender
  let urgency := _calculate_clinical_urgency findings age gender
  let risk := severity * (6/10) + urgency * (4/10)
  let risk2 := if 1 < findings.length then risk * (11/10) else risk
  min risk2 1

/-- clinical_params.severity_thresholds: the (high, critical) cutoff
pair per age group, used by both _classify_severity and
_classify_urgency. -/
def severity_thresholds : AgeGroup → ℚ × ℚ
  | .infant => (3/10, 6/10)
  | .toddler => (4/10, 7/10)
  | .child => (5/10, 8/10)
  | .adolescent => (6/10, 85/100)

/-- _get_age_group: first matching inclusive bucket of
clinical_params.age_groups, defaulting to adolescent. -/
def _get_age_group (age : ℤ) : AgeGroup :=
  if 0 ≤ age ∧ age ≤ 2 then .infant
  else if 3 ≤ age ∧ age ≤ 5 then .toddler
  else if 6 ≤ age ∧ age ≤ 12 then .child
  else if 13 ≤ age ∧ age ≤ 17 then .adolescent
  else .adolescent

/-- _classify_severity: cascade critical / high / 0.2 / catch-all. -/
def _classify_severity (score : ℚ) (ageGroup : AgeGroup) : String :=
  let t := severity_thresholds ageGroup
  if t.2 ≤ score then "critical"
  else if t.1 ≤ score then "high"
  else if (2/10 : ℚ) ≤ score then "moderate"
  else "low"

/-- _classify_urgency: cascade critical / high / 0.3 / catch-all over
the same threshold table. -/
def _classify_urgency (score : ℚ) (ageGroup : AgeGroup) : String :=
  let t := severity_thresholds ageGroup
  if t.2 ≤ score then "immediate"
  else if t.1 ≤ score then "urgent"
  else if (3/10 : ℚ) ≤ score then "routine"
  else "monitoring"

/-- _classify_risk: fixed cutoffs 0.8 / 0.6 / 0.4. -/
def _classify_risk (score : ℚ) : String :=
  if (8/10 : ℚ) ≤ score then "very_high"
  else if (6/10 : ℚ) ≤ score then "high"
  else if (4/10 : ℚ) ≤ score then "moderate"
  else "low"

/-- _get_recommendation_type of the advanced pipeline. -/
def _get_recommendation_type (findings : List String) (severity : ℚ) : String :=
  if findings.contains "Pneumothorax" || findings.contains "Mass" then "emergency"
  else if (7/10 : ℚ) ≤ severity then "urgent_care"
  else if (4/10 : ℚ) ≤ severity then "doctor_visit"
  else "monitoring"

example : _calculate_clinical_severity ["Pneumonia"] 2 "M" = 91/100 := by
  simp [_calculate_clinical_severity, sumWeights, lookupWeight, severity_weights, List.find?]
  norm_num [min_def]

example : _calculate_clinical_severity ["Pneumonia"] 2 "F" = 1911/2000 := by
  simp [_calculate_clinical_severity, sumWeights, lookupWeight, severity_weights, List.find?]
  norm_num [min_def]

example : _calculate_clinical_urgency ["Pneumonia"] 2 "M" = 98/100 := by
  simp [_calculate_clinical_urgency, sumWeights, lookupWeight, urgency_weights, List.find?]
  norm_num [min_def]

example : _classify_severity 0 .infant = "low" := by
  simp [_classify_severity, severity_thresholds]
  norm_num

example : _classify_urgency (1/2) .infant = "urgent" := by
  simp [_classify_urgency, severity_thresholds]
  norm_num

/-! Helper lemmas about the weight-accumulation loop. -/

lemma foldl_add_eq (w : String → ℚ) :
    ∀ (l : List String) (a : ℚ), l.foldl (fun acc f => acc + w f) a = a + (l.map w).sum := by
  intro l
  induction l with
  | nil => intro a; simp
  | cons x xs ih => intro a; simp [ih]; ring

lemma sumWeights_eq (t : List (String × ℚ)) (l : List String) :
    sumWeights t l = (l.map (lookupWeight t)).sum := by
  simpa [sumWeights] using foldl_add_eq (lookupWeight t) l 0

lemma lookupWeight_nonneg (t : List (String × ℚ)) (h : ∀ p ∈ t, 0 ≤ p.2) (c : String) :
    0 ≤ lookupWeight t c := by
  unfold lookupWeight
  cases hf : t.find? (fun p => p.1 == c) with
  | none => exact le_refl 0
  | some p => exact h p (List.mem_of_find?_eq_some hf)

lemma severity_weights_nonneg : ∀ p ∈ severity_weights, (0:ℚ) ≤ p.2 := by
  intro p hp
  fin_cases hp <;> norm_num

lemma urgency_weights_nonneg : ∀ p ∈ urgency_weights, (0:ℚ) ≤ p.2 := by
  intro p hp
  fin_cases hp <;> norm_num

lemma sumWeights_nonneg (t : List (String × ℚ)) (h : ∀ p ∈ t, 0 ≤ p.2) (l : List String) :
    0 ≤ sumWeights t l := by
  rw [sumWeights_eq]
  apply List.sum_nonneg
  intro x hx
  obtain ⟨c, _, rfl⟩ := List.mem_map.mp hx
  exact lookupWeight_nonneg t h c

lemma severity_mem_unit (findings : List String) (age : ℤ) (gender : String) :
    0 ≤ _calculate_clinical_severity findings age gender ∧
      _calculate_clinical_severity findings age gender ≤ 1 := by
  have hs : 0 ≤ sumWeights severity_weights findings :=
    sumWeights_nonneg _ severity_weights_nonneg _
  unfold _calculate_clinical_severity
  refine ⟨le_min ?_ (by norm_num), min_le_right _ _⟩
  split_ifs <;> positivity

lemma urgency_mem_unit (findings : List String) (age : ℤ) (gender : String) :
    0 ≤ _calculate_clinical_urgency findings age gender ∧
      _calculate_clinical_urgency findings age gender ≤ 1 := by
  have hs : 0 ≤ sumWeights urgency_weights findings :=
    sumWeights_nonneg _ urgency_weights_nonneg _
  unfold _calculate_clinical_urgency
  refine ⟨le_min ?_ (by norm_num), min_le_right _ _⟩
  split_ifs <;> positivity

lemma risk_mem_unit (findings : List String) (age : ℤ) (gender : String) :
    0 ≤ _calculate_risk_score findings age gender ∧
      _calculate_risk_score findings age gender ≤ 1 := by
  obtain ⟨hs0, _⟩ := severity_mem_unit findings age gender
  obtain ⟨hu0, _⟩ := urgency_mem_unit findings age gender
  unfold _calculate_risk_score
  refine ⟨le_min ?_ (by norm_num), min_le_right _ _⟩
  split_ifs <;> positivity

/-- C1: for every finite list of present conditions, every integer age and
every gender, the severity, urgency and risk scores of the Rule-Based
Scorer all lie in the closed interval [0,1]. -/
theorem c1_scores_within_unit_interval :
    ∀ (findings : List String) (age : ℤ) (gender : String),
      (0 ≤ _calculate_clinical_severity findings age gender ∧
        _calculate_clinical_severity findings age gender ≤ 1) ∧
      (0 ≤ _calculate_clinical_urgency findings age gender ∧
        _calculate_clinical_urgency findings age gender ≤ 1) ∧
      (0 ≤ _calculate_risk_score findings age gender ∧
        _calculate_risk_score findings age gender ≤ 1) := by
  intro findings age gender
  exact ⟨severity_mem_unit findings age gender, urgency_mem_unit findings age gender,
    risk_mem_unit findings age gender⟩

/-! Tier ranks used to express monotonicity of the threshold classifiers. -/

/-- Rank of the labels produced by _classify_severity, lowest to highest. -/
def severityTier : String → ℕ
  | "critical" => 3
  | "high" => 2
  | "moderate" => 1
  | _ => 0

/-- Rank of the labels produced by _classify_urgency, lowest to highest. -/
def urgencyTier : String → ℕ
  | "immediate" => 3
  | "urgent" => 2
  | "routine" => 1
  | _ => 0

/-- C2: within a fixed age group, the label assigned by the threshold
classifier is monotone in the score: a lower score never receives a
strictly higher severity or urgency tier. -/
theorem c2_classification_monotone (g : AgeGroup) (s1 s2 : ℚ) (h : s1 ≤ s2) :
    severityTier (_classify_severity s1 g) ≤ severityTier (_classify_severity s2 g) ∧
      urgencyTier (_classify_urgency s1 g) ≤ urgencyTier (_classify_urgency s2 g) := by
  constructor
  · cases g <;>
      (simp only [_classify_severity, severity_thresholds] <;>
        split_ifs <;> simp [severityTier] <;> linarith)
  · cases g <;>
      (simp only [_classify_urgency, severity_thresholds] <;>
        split_ifs <;> simp [urgencyTier] <;> linarith)

/-- Witness for C2 at the concrete inputs g = infant, s1 = 0, s2 = 1. -/
theorem c2_classification_monotone_witness :
    (0:ℚ) ≤ 1 ∧
      severityTier (_classify_severity 0 .infant) ≤ severityTier (_classify_severity 1 .infant) :=
  ⟨by norm_num, (c2_classification_monotone .infant 0 1 (by norm_num)).1⟩

/-! C3: the urgency formula. -/

/-- The urgency formula as claim C3 states it, written from the claim for
refutation: clamp the weight sum first, then multiply by the same
age-multiplier step function that severity uses
(≤2 → 1.3, ≤5 → 1.2, ≤12 → 1.1, else 1.0). -/
def urgencyFormulaClaimedC3 (findings : List String) (age : ℤ) : ℚ :=
  min (sumWeights urgency_weights findings) 1 *
    (if age ≤ 2 then (13/10 : ℚ) else if age ≤ 5 then 12/10 else if age ≤ 12 then 11/10 else 1)

/-- Counterexample to C3: for findings = [Pneumonia], age = 2, the code
returns min(0.7 × 1.4, 1) = 0.98, while the claimed formula gives
min(0.7, 1) × 1.3 = 0.91. The urgency scorer has its own multiplier table
and clamps after the multiplication. -/
theorem c3_counterexample :
    _calculate_clinical_urgency ["Pneumonia"] 2 "M" ≠ urgencyFormulaClaimedC3 ["Pneumonia"] 2 := by
  simp [_calculate_clinical_urgency, urgencyFormulaClaimedC3, sumWeights, lookupWeight,
    urgency_weights, List.find?]
  norm_num [min_def]

/-- The amended C3 formula: the urgency score is the sum of the urgency
weights of the present conditions times urgency's own age step function
(≤2 → ×1.4, ≤5 → ×1.25, else ×1.0), clamped to 1.0 after the
multiplication. -/
def urgencyFormulaAmended (findings : List String) (age : ℤ) : ℚ :=
  min ((findings.map (lookupWeight urgency_weights)).sum *
    (if age ≤ 2 then (14/10 : ℚ) else if age ≤ 5 then 125/100 else 1)) 1

/-- C3 as amended: for every list of conditions, age and gender, the
urgency score equals the amended closed formula. -/
theorem c3_amended_urgency_formula :
    ∀ (findings : List String) (age : ℤ) (gender : String),
      _calculate_clinical_urgency findings age gender = urgencyFormulaAmended findings age := by
  intro findings age gender
  unfold _calculate_clinical_urgency urgencyFormulaAmended
  rw [← sumWeights_eq]
  split_ifs <;> simp

/-! C5: scoring the empty condition list. -/

/-- C5: for every weight table, age and gender, the empty condition list
scores severity 0 and urgency 0, and classifying that zero severity gives
the catch-all label low in every age group. -/
theorem c5_empty_conditions_score_zero :
    ∀ (table : List (String × ℚ)) (age : ℤ) (gender : String),
      sumWeights table [] = 0 ∧
      _calculate_clinical_severity [] age gender = 0 ∧
      _calculate_clinical_urgency [] age gender = 0 ∧
      ∀ g : AgeGroup, _classify_severity (_calculate_clinical_severity [] age gender) g = "low" := by
  intro table age gender
  have hsev : _calculate_clinical_severity [] age gender = 0 := by
    unfold _calculate_clinical_severity sumWeights
    simp only [List.foldl_nil]
    split_ifs <;> norm_num [min_def]
  have hurg : _calculate_clinical_urgency [] age gender = 0 := by
    unfold _calculate_clinical_urgency sumWeights
    simp only [List.foldl_nil]
    split_ifs <;> norm_num [min_def]
  refine ⟨rfl, hsev, hurg, ?_⟩
  intro g
  rw [hsev]
  cases g <;> (simp [_classify_severity, severity_thresholds]; norm_num)

/-! C6: the worked Pneumonia example. -/

/-- Counterexample to C6: for gender F the 1.05 gender multiplier also
fires at age 2, so the severity score is 0.9555, not the claimed 0.91. -/
theorem c6_counterexample :
    _calculate_clinical_severity ["Pneumonia"] 2 "F" ≠ 91/100 ∧
      _calculate_clinical_severity ["Pneumonia"] 2 "F" = 1911/2000 := by
  constructor
  · simp [_calculate_clinical_severity, sumWeights, lookupWeight, severity_weights, List.find?]
    norm_num [min_def]
  · simp [_calculate_clinical_severity, sumWeights, lookupWeight, severity_weights, List.find?]
    norm_num [min_def]

/-- C6 as amended: for conditions = [Pneumonia] and age 2 the severity
score is min(0.7 × 1.3, 1) = 0.91 for every gender other than F; for
gender F the additional ×1.05 multiplier yields 0.9555. -/
theorem c6_amended_pneumonia_example (gender : String) (h : gender ≠ "F") :
    _calculate_clinical_severity ["Pneumonia"] 2 gender = 91/100 := by
  have hw : sumWeights severity_weights ["Pneumonia"] = 7/10 := by
    simp [sumWeights, lookupWeight, severity_weights, List.find?]
  have hg : ¬(gender = "F" ∧ (2:ℤ) < 10) := by
    intro hc
    exact h hc.1
  simp only [_calculate_clinical_severity, hw, if_neg hg]
  norm_num [min_def]

/-- Witness for C6 as amended, at gender M. -/
theorem c6_amended_pneumonia_example_witness :
    ("M" : String) ≠ "F" ∧ _calculate_clinical_severity ["Pneumonia"] 2 "M" = 91/100 :=
  ⟨by simp, c6_amended_pneumonia_example "M" (by simp)⟩

/-! C7: role of the gender argument. -/

/-- C7: the urgency score is independent of the gender argument, and the
×1.05 gender multiplier acts only in the severity computation, only for
gender F under age 10: for any other gender/age combination the severity
equals the gender-M severity, and for F under 10 it is the age-adjusted
weight sum times 1.05, clamped. -/
theorem c7_gender_only_affects_severity :
    (∀ (findings : List String) (age : ℤ) (g1 g2 : String),
        _calculate_clinical_urgency findings age g1 = _calculate_clinical_urgency findings age g2) ∧
    (∀ (findings : List String) (age : ℤ) (g : String), ¬(g = "F" ∧ age < 10) →
        _calculate_clinical_severity findings age g =
          _calculate_clinical_severity findings age "M") ∧
    (∀ (findings : List String) (age : ℤ), age < 10 →
        _calculate_clinical_severity findings age "F" =
          min ((if age ≤ 2 then sumWeights severity_weights findings * (13/10)
                else if age ≤ 5 then sumWeights severity_weights findings * (12/10)
                else if age ≤ 12 then sumWeights severity_weights findings * (11/10)
                else sumWeights severity_weights findings) * (21/20)) 1) := by
  refine ⟨?_, ?_, ?_⟩
  · intro f a g1 g2
    rfl
  · intro f a g h
    have hM : ¬(("M":String) = "F" ∧ a < 10) := by simp
    simp only [_calculate_clinical_severity, if_neg h, if_neg hM]
  · intro f a h
    simp only [_calculate_clinical_severity]
    simp [h]

/-- Witness for C7 at concrete inputs: urgency agrees across genders at
age 3, and severity for F at age 12 agrees with severity for M. -/
theorem c7_gender_only_affects_severity_witness :
    ¬(("F":String) = "F" ∧ (12:ℤ) < 10) ∧
      _calculate_clinical_urgency ["Pneumonia"] 3 "M" =
        _calculate_clinical_urgency ["Pneumonia"] 3 "F" ∧
      _calculate_clinical_severity ["Pneumonia"] 12 "F" =
        _calculate_clinical_severity ["Pneumonia"] 12 "M" :=
  ⟨by simp, c7_gender_only_affects_severity.1 ["Pneumonia"] 3 "M" "F",
    c7_gender_only_affects_severity.2.1 ["Pneumonia"] 12 "F" (by simp)⟩

/-! C4: unknown condition strings. The scorer side uses the weight-table
lookup above; the feature-extraction side models _extract_symptoms of
nih_data_processor.py, whose keyword matching silently skips findings
that match no tracked condition. -/

/-- Character-list version of a startswith check, used to build the
substring test below. -/
def startsWithChars : List Char → List Char → Bool
  | [], _ => true
  | _ :: _, [] => false
  | p :: ps, s :: ss => p == s && startsWithChars ps ss

/-- Substring search over character lists. -/
def hasSubChars (pat : List Char) : List Char → Bool
  | [] => startsWithChars pat []
  | c :: ss => startsWithChars pat (c :: ss) || hasSubChars pat ss

/-- Python's substring containment test `pat in s`. -/
def strContains (s pat : String) : Bool :=
  hasSubChars pat.toList s.toList

/-- Python's `s.strip().lower()` normalization applied to each finding at
nih_data_processor.py line 211: surrounding whitespace is removed, then
every character is lowercased (ASCII case folding, which covers the NIH
labels). -/
def pyStripLower (s : String) : String :=
  ((((s.toList.dropWhile Char.isWhitespace).reverse.dropWhile
      Char.isWhitespace).reverse).map Char.toLower).asString

/-- pediatric_conditions keyword table of NIHChestXrayProcessor. -/
def pediatric_conditions : List (String × List String) :=
  [("pneumonia", ["pneumonia", "consolidation", "infiltrate"]),
   ("atelectasis", ["atelectasis", "collapse"]),
   ("effusion", ["effusion", "pleural"]),
   ("edema", ["edema", "congestion"]),
   ("cardiomegaly", ["cardiomegaly", "enlarged heart"]),
   ("hernia", ["hernia"]),
   ("mass", ["mass", "nodule"]),
   ("nodule", ["nodule", "mass"]),
   ("fracture", ["fracture", "broken"]),
   ("emphysema", ["emphysema"]),
   ("fibrosis", ["fibrosis"]),
   ("thickening", ["thickening", "thickened"]),
   ("consolidation", ["consolidation", "pneumonia"])]

/-- Inner loop of _extract_symptoms for one finding: the finding is
stripped and lowercased, then the first condition one of whose keywords
occurs in the normalized finding is appended and the loop breaks; a
finding matching no keyword contributes nothing. -/
def symptomsOfFinding (finding : String) : List String :=
  let f := pyStripLower finding
  match pediatric_conditions.find? (fun ck => ck.2.any (fun kw => strContains f kw)) with
  | some ck => [ck.1]
  | none => []

example : symptomsOfFinding "Pleural_Thickening" = ["effusion"] := by decide
example : symptomsOfFinding " Pneumonia " = ["pneumonia"] := by decide
example : symptomsOfFinding "No Finding" = [] := by decide

/-- The symptom-accumulation loop of _extract_symptoms over the findings
of one row (before the final set-based duplicate removal). -/
def extractSymptoms (findings : List String) : List String :=
  findings.foldl (fun acc f => acc ++ symptomsOfFinding f) []

lemma extract_foldl_eq :
    ∀ (l : List String) (a : List String),
      l.foldl (fun acc f => acc ++ symptomsOfFinding f) a = a ++ (l.map symptomsOfFinding).flatten := by
  intro l
  induction l with
  | nil => intro a; simp
  | cons x xs ih => intro a; simp [ih]

lemma extractSymptoms_eq (l : List String) :
    extractSymptoms l = (l.map symptomsOfFinding).flatten := by
  simpa [extractSymptoms] using extract_foldl_eq l []

lemma lookupWeight_eq_zero (t : List (String × ℚ)) (c : String)
    (h : t.find? (fun p => p.1 == c) = none) : lookupWeight t c = 0 := by
  unfold lookupWeight
  rw [h]

lemma sumWeights_middle (t : List (String × ℚ)) (c : String)
    (h : lookupWeight t c = 0) (l1 l2 : List String) :
    sumWeights t (l1 ++ c :: l2) = sumWeights t (l1 ++ l2) := by
  simp [sumWeights_eq, h]

/-- C4: a condition name absent from both weight tables, and whose
stripped-and-lowercased form matches no tracked keyword, contributes
nothing: the severity and urgency scores, and the extracted symptom
list, computed with it present are identical to those computed with it
removed (and every function is total, so no exception can be raised). -/
theorem c4_unknown_condition_ignored :
    ∀ (c : String),
      severity_weights.find? (fun p => p.1 == c) = none →
      urgency_weights.find? (fun p => p.1 == c) = none →
      pediatric_conditions.find?
        (fun ck => ck.2.any (fun kw => strContains (pyStripLower c) kw)) = none →
      ∀ (l1 l2 : List String) (age : ℤ) (gender : String),
        _calculate_clinical_severity (l1 ++ c :: l2) age gender =
          _calculate_clinical_severity (l1 ++ l2) age gender ∧
        _calculate_clinical_urgency (l1 ++ c :: l2) age gender =
          _calculate_clinical_urgency (l1 ++ l2) age gender ∧
        extractSymptoms (l1 ++ c :: l2) = extractSymptoms (l1 ++ l2) := by
  intro c hsev hurg hvoc l1 l2 age gender
  have hs := sumWeights_middle severity_weights c (lookupWeight_eq_zero _ _ hsev) l1 l2
  have hu := sumWeights_middle urgency_weights c (lookupWeight_eq_zero _ _ hurg) l1 l2
  have hsym : symptomsOfFinding c = [] := by
    simp only [symptomsOfFinding, hvoc]
  refine ⟨?_, ?_, ?_⟩
  · simp only [_calculate_clinical_severity, hs]
  · simp only [_calculate_clinical_urgency, hu]
  · simp [extractSymptoms_eq, hsym]

/-- Witness for C4 at the NIH label "No Finding", inserted between
Pneumonia and Effusion at age 2, gender F. -/
theorem c4_unknown_condition_ignored_witness :
    severity_weights.find? (fun p => p.1 == "No Finding") = none ∧
      pediatric_conditions.find?
        (fun ck => ck.2.any (fun kw => strContains (pyStripLower "No Finding") kw)) = none ∧
      _calculate_clinical_severity (["Pneumonia"] ++ "No Finding" :: ["Effusion"]) 2 "F" =
        _calculate_clinical_severity (["Pneumonia"] ++ ["Effusion"]) 2 "F" ∧
      extractSymptoms (["Pneumonia"] ++ "No Finding" :: ["Effusion"]) =
        extractSymptoms (["Pneumonia"] ++ ["Effusion"]) :=
  ⟨by decide, by decide,
    (c4_unknown_condition_ignored "No Finding" (by decide) (by decide) (by decide)
      ["Pneumonia"] ["Effusion"] 2 "F").1,
    (c4_unknown_condition_ignored "No Finding" (by decide) (by decide) (by decide)
      ["Pneumonia"] ["Effusion"] 2 "F").2.2⟩

/-! C8: isolation of per-label training failures, from
train_nih_models.py. -/

/-- Outcome of the body of one per-label training routine of
NIHChestXrayTrainer: Except.ok when the scikit-learn calls inside the try
block complete, Except.error when any of them raises. -/
def trainModelBody (outcome : Except String Unit) : Except String Bool := do
  let _ ← outcome
  pure true

/-- train_symptom_model (and likewise train_severity_model and
train_urgency_model): the whole body sits in a try block; an exception is
caught, logged, and converted into the return value False. -/
def trainModel (outcome : Except String Unit) : Bool :=
  match trainModelBody outcome with
  | .ok b => b
  | .error _ => false

/-- Step 3 of run_training_pipeline: success &= train_*_model(...) for
each of the three labels, each call evaluated unconditionally; the
surrounding pipeline runs in the Except monad, so an uncaught exception
in any call would surface as Except.error. Returns the overall success
flag together with the three per-label results. -/
def run_training_pipeline_step3 (oSymptom oSeverity oUrgency : Except String Unit) :
    Except String (Bool × Bool × Bool × Bool) := do
  let s1 := trainModel oSymptom
  let s2 := trainModel oSeverity
  let s3 := trainModel oUrgency
  pure (s1 && s2 && s3, s1, s2, s3)

/-- C8: when the symptom-model training raises, the exception is caught
inside the per-label routine (which returns False) and the severity and
urgency models are still trained on their own outcomes: the pipeline
returns Except.ok, never an uncaught exception. -/
theorem c8_label_failure_isolated :
    ∀ (e : String) (oSeverity oUrgency : Except String Unit),
      trainModel (.error e) = false ∧
        run_training_pipeline_step3 (.error e) oSeverity oUrgency =
          .ok (false, false, trainModel oSeverity, trainModel oUrgency) := by
  intro e oSeverity oUrgency
  exact ⟨rfl, rfl⟩

/-! C9: determinism of the per-record pipeline of
extract_advanced_features. -/

/-- respiratory_priority list of clinical_params. -/
def respiratory_priority : List String :=
  ["Pneumonia", "Consolidation", "Effusion", "Atelectasis",
   "Pneumothorax", "Edema", "Cardiomegaly", "Mass"]

/-- One row of Data_Entry_2017.csv as the pipeline reads it: Patient Age
(already int-coerced), Patient Gender, View Position and the pipe-split
Finding Labels. -/
structure Record where
  patientAge : ℤ
  patientGender : String
  viewPosition : String
  findingLabels : List String
deriving DecidableEq

/-- Position of the age group in clinical_params.age_groups key order,
as computed by list(keys).index(age_group). -/
def ageGroupIndex : AgeGroup → ℚ
  | .infant => 0
  | .toddler => 1
  | .child => 2
  | .adolescent => 3

/-- Output of one loop iteration of extract_advanced_features: the
feature vector of the row and its four labels. -/
structure ProcessedRow where
  features : List ℚ
  severityLabel : String
  urgencyLabel : String
  riskLabel : String
  recommendationLabel : String
deriving DecidableEq

/-- The per-record body of extract_advanced_features: Feature Extractor →
Rule-Based Scorer → Threshold Classifier applied to one Record. -/
def processRecord (r : Record) : ProcessedRow :=
  let age := r.patientAge
  let genderInd : ℚ := if r.patientGender = "M" then 1 else 0
  let viewInd : ℚ := if r.viewPosition = "PA" then 1 else 0
  let ageGroup := _get_age_group age
  let findings := r.findingLabels
  let respiratoryFindings := findings.filter (fun f => respiratory_priority.contains f)
  let hasPneumonia : ℚ :=
    if findings.contains "Pneumonia" || findings.contains "Consolidation" then 1 else 0
  let hasEffusion : ℚ := if findings.contains "Effusion" then 1 else 0
  let hasAtelectasis : ℚ := if findings.contains "Atelectasis" then 1 else 0
  let hasCritical : ℚ :=
    if ["Pneumothorax", "Mass", "Cardiomegaly"].any (fun f => findings.contains f) then 1 else 0
  let severityScore := _calculate_clinical_severity respiratoryFindings age r.patientGender
  let urgencyScore := _calculate_clinical_urgency respiratoryFindings age r.patientGender
  let riskScore := _calculate_risk_score respiratoryFindings age r.patientGender
  { features := [(age : ℚ), genderInd, viewInd, ageGroupIndex ageGroup,
      ((respiratoryFindings.length : ℤ) : ℚ), hasPneumonia, hasEffusion, hasAtelectasis,
      hasCritical, severityScore, urgencyScore],
    severityLabel := _classify_severity severityScore ageGroup,
    urgencyLabel := _classify_urgency urgencyScore ageGroup,
    riskLabel := _classify_risk riskScore,
    recommendationLabel := _get_recommendation_type respiratoryFindings severityScore }

/-- C9: the Feature Extractor → Rule-Based Scorer → Threshold Classifier
pipeline is deterministic: two records with the same age, gender, view
position and finding labels map to identical feature vectors, scores and
labels. -/
theorem c9_pipeline_deterministic (r1 r2 : Record)
    (h1 : r1.patientAge = r2.patientAge)
    (h2 : r1.patientGender = r2.patientGender)
    (h3 : r1.viewPosition = r2.viewPosition)
    (h4 : r1.findingLabels = r2.findingLabels) :
    processRecord r1 = processRecord r2 := by
  cases r1
  cases r2
  simp only at h1 h2 h3 h4
  subst h1 h2 h3 h4
  rfl

/-- Witness for C9 at a concrete record applied twice. -/
theorem c9_pipeline_deterministic_witness :
    processRecord ⟨2, "F", "PA", ["Pneumonia", "Effusion"]⟩ =
      processRecord ⟨2, "F", "PA", ["Pneumonia", "Effusion"]⟩ :=
  c9_pipeline_deterministic _ _ rfl rfl rfl rfl

/-! C10: the infant urgency classifier never emits the routine label. -/

/-- C10: for the infant age group, whose high threshold coincides with
the fixed 0.3 routine cutoff, the urgency classifier never returns
routine; every score is classified immediate (≥ 0.6), urgent (≥ 0.3) or
monitoring (< 0.3). -/
theorem c10_infant_urgency_never_routine (s : ℚ) :
    _classify_urgency s .infant ≠ "routine" ∧
      ((6/10 : ℚ) ≤ s → _classify_urgency s .infant = "immediate") ∧
      ((3/10 : ℚ) ≤ s → s < 6/10 → _classify_urgency s .infant = "urgent") ∧
      (s < (3/10 : ℚ) → _classify_urgency s .infant = "monitoring") := by
  refine ⟨?_, ?_, ?_, ?_⟩
  · simp only [_classify_urgency, severity_thresholds]
    split_ifs <;> simp <;> linarith
  · intro h
    simp only [_classify_urgency, severity_thresholds]
    split_ifs <;> first | rfl | (exfalso; linarith)
  · intro h1 h2
    simp only [_classify_urgency, severity_thresholds]
    split_ifs <;> first | rfl | (exfalso; linarith)
  · intro h
    simp only [_classify_urgency, severity_thresholds]
    split_ifs <;> first | rfl | (exfalso; linarith)

/-- Witness for C10 at the concrete scores 0.45 and 0.2. -/
theorem c10_infant_urgency_never_routine_witness :
    ((3/10 : ℚ) ≤ 45/100 ∧ (45/100 : ℚ) < 6/10 ∧
      _classify_urgency (45/100) .infant = "urgent") ∧
      ((2/10 : ℚ) < 3/10 ∧ _classify_urgency (2/10) .infant = "monitoring") :=
  ⟨⟨by norm_num, by norm_num,
      (c10_infant_urgency_never_routine (45/100)).2.2.1 (by norm_num) (by norm_num)⟩,
    ⟨by norm_num, (c10_infant_urgency_never_routine (2/10)).2.2.2 (by norm_num)⟩⟩

end BeforeDoctor
